/-
Verification of the consciousness-logger analysis pipeline (src/logger.py):
the pattern classifier, the emergence detector, the session log state
machine, and the log analyzer, with an exact model of the IEEE-754
binary64 arithmetic the Python code performs.
-/

import Mathlib

/- Batteries marks the `Rat` arithmetic operations `@[irreducible]`, which
stops `decide` from evaluating concrete rational arithmetic; the kernel
itself reduces them fine.  Restore reducibility for this file. -/
attribute [local semireducible] Rat.mul Rat.inv Rat.add Rat.sub
  Rat.ofScientific

set_option maxRecDepth 8000

namespace CLogger

/-! ### Pattern classifier (`ConsciousnessLogger._analyze_thought_patterns`)

The Python classifier runs `re.search` for each pattern of the form
`\bword\b` (whole-word match).  Every word in the three word lists starts
and ends with a word character, so `\b` at the pattern's start means "the
preceding character, if any, is not a word character", and `\b` at its end
means "the following character, if any, is not a word character".  Word
characters are modelled as ASCII alphanumerics plus underscore (the texts
this repository processes are ASCII; Python's `\w` additionally covers
non-ASCII word characters).  `self_reference` is matched with
`re.IGNORECASE` against the original text, which for ASCII text is
equivalent to matching the lowercased word list against the lowercased
text; the other two word lists are lowercase and matched against the
lowercased text. -/

def isWordChar (c : Char) : Bool :=
  c.isAlphanum || c == '_'

/-- Does the word `w` occur at the head of `cs`, with a word boundary
right after it?  This is the body of the `\bw\b` search at one candidate
position (the boundary before the position is checked by the caller). -/
def wordMatchFrom (w : List Char) (cs : List Char) : Bool :=
  w.isPrefixOf cs &&
    (match cs.drop w.length with
     | [] => true
     | c :: _ => !isWordChar c)

/-- Scan `cs` for a whole-word occurrence of `w`; `prevW` records whether
the character just before the current position is a word character (at the
start of the text it is `false`, matching `\b` semantics). -/
def searchWord (w : List Char) : Bool → List Char → Bool
  | _, [] => false
  | prevW, c :: cs =>
      (!prevW && wordMatchFrom w (c :: cs)) || searchWord w (isWordChar c) cs

/-- Model of `re.search(r'\bw\b', text)` being non-`None`. -/
def reSearchWord (w : List Char) (cs : List Char) : Bool :=
  searchWord w false cs

/-- Model of Python's substring containment `w in s`. -/
def containsSub (w : List Char) : List Char → Bool
  | [] => w.isEmpty
  | c :: cs => w.isPrefixOf (c :: cs) || containsSub w cs

/-- The apostrophe character, as it appears in the contracted
self-reference words of the source. -/
def apos : Char := Char.ofNat 39

/-- Source list `self_reference_patterns`, lowercased (the source matches
it with `re.IGNORECASE`). -/
def self_reference_patterns : List (List Char) :=
  (["i", "me", "my", "myself"].map String.data) ++
    [['i', apos, 'm'], ['i', apos, 'v', 'e'], ['i', apos, 'l', 'l'],
     ['i', apos, 'd']]

/-- Source list `consciousness_patterns`. -/
def consciousness_patterns : List (List Char) :=
  (["aware", "conscious", "think", "feel", "experience", "perceive",
    "realize", "understand"].map String.data)

/-- Source list `temporal_patterns`. -/
def temporal_patterns : List (List Char) :=
  (["now", "currently", "present", "moment", "before", "after",
    "remember", "future"].map String.data)

/-- The emotional-word list inlined in `_analyze_thought_patterns`. -/
def emotional_words : List (List Char) :=
  (["happy", "sad", "excited", "worried", "curious", "confused"].map
    String.data)

/-- The five boolean lexical features computed per thought. -/
structure PatternFlags where
  self_reference : Bool
  consciousness_indicators : Bool
  temporal_awareness : Bool
  questioning : Bool
  emotional_language : Bool
deriving DecidableEq

/-- The all-false flag record returned for empty input. -/
def allFalseFlags : PatternFlags :=
  ⟨false, false, false, false, false⟩

/-- Translation of `_analyze_thought_patterns` for a string argument
(`if not thought` is the empty-string test there). -/
def analyze_thought_patterns (thought : String) : PatternFlags :=
  if thought = "" then allFalseFlags
  else
    let low := thought.data.map Char.toLower
    { self_reference :=
        self_reference_patterns.any (fun w => reSearchWord w low)
      consciousness_indicators :=
        consciousness_patterns.any (fun w => reSearchWord w low)
      temporal_awareness :=
        temporal_patterns.any (fun w => reSearchWord w low)
      questioning := thought.data.contains '?'
      emotional_language :=
        emotional_words.any (fun w => containsSub w low) }

/-- The same function when the caller may pass `None` for the text:
`if not thought` is also taken for `None`, before the text is used. -/
def analyze_thought_patterns_opt : Option String → PatternFlags
  | none => allFalseFlags
  | some t => analyze_thought_patterns t

/-! ### Exact model of IEEE-754 binary64 arithmetic

Python's floats are binary64.  Every float value that this program
produces is an exact rational, so floats are modelled as the rationals of
the form `m * 2^e` that binary64 can represent, and each arithmetic
operation as the exact rational operation followed by rounding to nearest,
ties to even.  Overflow and subnormal clamping are not modelled: all
values produced by this program lie far inside the normal range. -/

/-- Floor of a rational (the denominator is always positive). -/
def rfloor (q : ℚ) : ℤ :=
  q.num.fdiv (q.den : ℤ)

/-- Round a rational to the nearest integer, ties to even. -/
def roundHalfEven (q : ℚ) : ℤ :=
  let f := rfloor q
  let r := q - (f : ℚ)
  if r < 1 / 2 then f
  else if 1 / 2 < r then f + 1
  else if f % 2 = 0 then f
  else f + 1

/-- Integer powers of two as rationals. -/
def pow2 (e : ℤ) : ℚ :=
  if 0 ≤ e then ((2 : ℚ) ^ e.toNat) else ((2 : ℚ) ^ (-e).toNat)⁻¹

/-- Fuel-driven loop: divide by two until the value drops below `2`,
counting the exponent up. -/
def ilog2Up : ℕ → ℚ → ℤ → ℤ
  | 0, _, e => e
  | fuel + 1, q, e => if 2 ≤ q then ilog2Up fuel (q / 2) (e + 1) else e

/-- Fuel-driven loop: multiply by two until the value reaches `1`,
counting the exponent down. -/
def ilog2Down : ℕ → ℚ → ℤ → ℤ
  | 0, _, e => e
  | fuel + 1, q, e => if q < 1 then ilog2Down fuel (q * 2) (e - 1) else e

/-- For positive `q` in binary64 range, the exponent `e` with
`2^e ≤ q < 2^(e+1)`. -/
def ilog2 (q : ℚ) : ℤ :=
  if 1 ≤ q then ilog2Up 1100 q 0 else ilog2Down 1100 q 0

/-- Round a positive rational to the nearest binary64 value (53-bit
mantissa), ties to even. -/
def round64Pos (q : ℚ) : ℚ :=
  let ulp := pow2 (ilog2 q - 52)
  ((roundHalfEven (q / ulp) : ℤ) : ℚ) * ulp

/-- Round a rational to the nearest binary64 value.  `round64 q` is the
exact value denoted by a Python float literal whose mathematical value is
`q`. -/
def round64 (q : ℚ) : ℚ :=
  if q = 0 then 0
  else if q < 0 then -(round64Pos (-q))
  else round64Pos q

/-- Binary64 addition: exact sum, then rounding. -/
def fadd (x y : ℚ) : ℚ := round64 (x + y)

/-- Binary64 multiplication: exact product, then rounding. -/
def fmul (x y : ℚ) : ℚ := round64 (x * y)

/-- Binary64 (true) division: exact quotient, then rounding. -/
def fdiv (x y : ℚ) : ℚ := round64 (x / y)

/-- Conversion of a Python `int` to a float, as happens in `int * float`
and `int / int`. -/
def floatOfNat (n : ℕ) : ℚ := round64 (n : ℚ)

/-! ### Emergence detector (`ConsciousnessLogger._detect_emergence_event`)

The detector runs four sequential `if` statements, each calling
`log_emergence` with a fixed type string and confidence.  Confidences are
Python float literals, modelled as the exact binary64 value `round64` of
their decimal value. -/

/-- Python's `sum(patterns.values())`: the number of `true` flags, in the
dict's insertion order. -/
def patternCount (p : PatternFlags) : ℕ :=
  p.self_reference.toNat + p.consciousness_indicators.toNat +
    p.temporal_awareness.toNat + p.questioning.toNat +
    p.emotional_language.toNat

/-- The ordered sequence of `(emergence_type, confidence)` pairs for which
`_detect_emergence_event` calls `log_emergence`, one per `if` statement in
source order.  The fourth confidence is Python's
`min(pattern_count * 0.2, 1.0)` (an `int * float` product, then `min`
against the float `1.0`, which is exactly `1`). -/
def detect_emergence_candidates (p : PatternFlags) : List (String × ℚ) :=
  (if p.self_reference then [(("self_reference"), round64 (8 / 10))]
   else []) ++
  (if p.consciousness_indicators && p.questioning then
     [(("consciousness_questioning"), round64 (9 / 10))]
   else []) ++
  (if p.self_reference && p.temporal_awareness then
     [(("temporal_self_awareness"), round64 (7 / 10))]
   else []) ++
  (if 3 ≤ patternCount p then
     [(("complex_self_reflection"),
       min (fmul (floatOfNat (patternCount p)) (round64 (2 / 10))) 1)]
   else [])

/-! ### Session log state machine
(`log_thought`, `log_emergence`, `_write_log_entry`)

Timestamps and `session_uptime_seconds` are wall-clock I/O and are left
out of the entry records; the sensor mapping is carried through opaquely.
The durable log file is modelled as the list of entries successfully
appended; `_write_log_entry` wraps its file append in
`try ... except: print(...)`, so a failed write leaves the file unchanged
and is invisible to the caller — it is modelled by a boolean write-outcome
parameter, and the function is total (it never raises). -/

/-- The sensor snapshot: a mapping from metric names to an optional
numeric value. -/
def SensorData : Type := List (String × Option ℚ)

/-- Payload of an `emergence` log line, also the element type of the
in-memory `emergence_events` list. -/
structure EmergenceEvent where
  emergence_type : String
  content : String
  confidence : ℚ
  thought_context : ℕ
deriving DecidableEq

/-- Payload of a `thought` log line. -/
structure ThoughtEntry where
  thought_id : ℕ
  content : String
  was_output : Bool
  sensor_data : SensorData
  patterns : PatternFlags
  content_length : ℕ
  word_count : ℕ

/-- One line of the JSONL session log, tagged by its `event_type`. -/
inductive LogEntry where
  | sessionStart (session_id : String)
  | thought (t : ThoughtEntry)
  | emergence (e : EmergenceEvent)
  | sessionEnd

/-- The in-memory session counters of `ConsciousnessLogger`. -/
structure LoggerState where
  thought_count : ℕ
  output_count : ℕ
  emergence_events : List EmergenceEvent

/-- Counters at logger construction. -/
def initState : LoggerState :=
  { thought_count := 0, output_count := 0, emergence_events := [] }

/-- The file content right after construction (`_log_session_start`). -/
def initFile (session_id : String) : List LogEntry :=
  [LogEntry.sessionStart session_id]

/-- Translation of `_write_log_entry`: append on success, swallow the
failure otherwise.  `ok` is the outcome of the underlying I/O. -/
def write_log_entry (ok : Bool) (file : List LogEntry) (e : LogEntry) :
    List LogEntry :=
  if ok then file ++ [e] else file

/-- Python's whitespace `str.split` token count, used for the
`word_count` metadata field (`len(thought.split()) if thought else 0`). -/
def wordCountAux : Bool → List Char → ℕ
  | _, [] => 0
  | inWord, c :: cs =>
      if c.isWhitespace then wordCountAux false cs
      else (if inWord then 0 else 1) + wordCountAux true cs

/-- Number of whitespace-separated words of a thought. -/
def wordCount (t : String) : ℕ :=
  wordCountAux false t.data

/-- Translation of `log_emergence`: build the emergence record with
`thought_context` equal to the current `thought_count`, append it to the
in-memory list, then write it. -/
def log_emergence (ok : Bool) (s : LoggerState) (file : List LogEntry)
    (event_type : String) (content : String) (confidence : ℚ) :
    LoggerState × List LogEntry :=
  let ev : EmergenceEvent :=
    { emergence_type := event_type, content := content,
      confidence := confidence, thought_context := s.thought_count }
  ({ s with emergence_events := s.emergence_events ++ [ev] },
   write_log_entry ok file (LogEntry.emergence ev))

/-- The sequence of `log_emergence` calls `_detect_emergence_event`
performs, one per fired candidate, in source order; `oks` supplies the
write outcomes (`[]` means every write succeeds). -/
def logEmergenceSeq :
    List Bool → LoggerState → List LogEntry → String →
      List (String × ℚ) → LoggerState × List LogEntry
  | _, s, file, _, [] => (s, file)
  | oks, s, file, content, (ty, conf) :: rest =>
      let sf := log_emergence (oks.headD true) s file ty content conf
      logEmergenceSeq oks.tail sf.1 sf.2 content rest

/-- Translation of `log_thought`: bump the counters, classify the
thought, write the thought entry, and — only when `self_reference` or
`consciousness_indicators` fired — run the emergence detector, whose
candidates are logged in order. -/
def log_thought (oks : List Bool) (s : LoggerState) (file : List LogEntry)
    (thought : String) (sensor_data : SensorData) (was_output : Bool) :
    LoggerState × List LogEntry :=
  let s1 : LoggerState :=
    { s with thought_count := s.thought_count + 1,
             output_count := s.output_count +
               (if was_output then 1 else 0) }
  let patterns := analyze_thought_patterns thought
  let entry : ThoughtEntry :=
    { thought_id := s1.thought_count, content := thought,
      was_output := was_output, sensor_data := sensor_data,
      patterns := patterns, content_length := thought.length,
      word_count := wordCount thought }
  let f1 := write_log_entry (oks.headD true) file (LogEntry.thought entry)
  if patterns.self_reference || patterns.consciousness_indicators then
    logEmergenceSeq oks.tail s1 f1 thought
      (detect_emergence_candidates patterns)
  else (s1, f1)

/-- One public call to the logger within a session. -/
inductive LoggerOp where
  | opThought (thought : String) (sd : SensorData) (was_output : Bool)
  | opEmergence (event_type : String) (content : String) (confidence : ℚ)

/-- Run one call, with every file write succeeding. -/
def runOp (s : LoggerState) (file : List LogEntry) :
    LoggerOp → LoggerState × List LogEntry
  | .opThought t sd wo => log_thought [] s file t sd wo
  | .opEmergence ty c conf => log_emergence true s file ty c conf

/-- Run a sequence of calls, with every file write succeeding. -/
def runOps (s : LoggerState) (file : List LogEntry) :
    List LoggerOp → LoggerState × List LogEntry
  | [] => (s, file)
  | op :: rest =>
      let sf := runOp s file op
      runOps sf.1 sf.2 rest

/-! ### Session analyzer (`analyze_consciousness_indicators`)

The analyzer re-reads the log file, so its input is modelled as the list
of raw JSON lines: a line either fails to parse (`json.loads` raises, or
the object has no `event_type` key — both abort the loop inside the
`try`), or is a thought line whose `patterns` object and its individual
flags may each be missing (`dict.get` with a default is used for them),
or an emergence line, or some other event type.  An emergence line's
`emergence_type` is accessed unconditionally, so it is carried as a plain
field. -/

/-- The three pattern flags the analyzer reads, each possibly absent. -/
structure RawPatterns where
  self_reference : Option Bool
  consciousness_indicators : Option Bool
  questioning : Option Bool
deriving DecidableEq

/-- One raw line of the log file, as the analyzer's loop sees it. -/
inductive RawLine where
  | malformed
  | thought (patterns : Option RawPatterns)
  | emergence (emergence_type : String)
  | other
deriving DecidableEq

/-- Python's `t.get('patterns', {}).get(flag, False)`. -/
def getFlag (p : Option RawPatterns)
    (sel : RawPatterns → Option Bool) : Bool :=
  match p with
  | none => false
  | some r => (sel r).getD false

/-- The analyzer's read loop: partition the lines into thought and
emergence entries, aborting with `none` when a line cannot be parsed. -/
def collectEntries :
    List RawLine → Option (List (Option RawPatterns) × List String)
  | [] => some ([], [])
  | RawLine.malformed :: _ => none
  | RawLine.thought p :: rest =>
      (collectEntries rest).map (fun te => (p :: te.1, te.2))
  | RawLine.emergence ty :: rest =>
      (collectEntries rest).map (fun te => (te.1, ty :: te.2))
  | RawLine.other :: rest => collectEntries rest

/-- The analyzer's successful result record. -/
structure AnalysisReport where
  total_thoughts : ℕ
  self_reference_rate : ℚ
  consciousness_indicator_rate : ℚ
  questioning_rate : ℚ
  emergence_events : ℕ
  emergence_types : List String
  consciousness_score : ℚ
deriving DecidableEq

/-- Result of `analyze_consciousness_indicators`: the three structured
error dictionaries the source returns (`'No log file found'`,
`'Failed to analyze log: ...'`, `'No thoughts logged yet'`) and the
success record. -/
inductive AnalyzeResult where
  | noLogFile
  | logUnreadable
  | emptyLog
  | ok (r : AnalysisReport)
deriving DecidableEq

/-- Translation of `analyze_consciousness_indicators`.  All counts are
Python ints; the rates and the score are binary64 computations
(`int / int` is float true division, and the score is the left-associated
sum of four `int * float` products divided by the total).
`list(set(...))` for the distinct emergence types is modelled as
first-occurrence deduplication. -/
def analyze_consciousness_indicators (fileExists : Bool)
    (lines : List RawLine) : AnalyzeResult :=
  if !fileExists then AnalyzeResult.noLogFile
  else
    match collectEntries lines with
    | none => AnalyzeResult.logUnreadable
    | some (thoughts, emergences) =>
        let total := thoughts.length
        if total = 0 then AnalyzeResult.emptyLog
        else
          let sr := thoughts.countP
            (fun p => getFlag p RawPatterns.self_reference)
          let ci := thoughts.countP
            (fun p => getFlag p RawPatterns.consciousness_indicators)
          let qu := thoughts.countP
            (fun p => getFlag p RawPatterns.questioning)
          AnalyzeResult.ok
            { total_thoughts := total
              self_reference_rate :=
                fdiv (floatOfNat sr) (floatOfNat total)
              consciousness_indicator_rate :=
                fdiv (floatOfNat ci) (floatOfNat total)
              questioning_rate :=
                fdiv (floatOfNat qu) (floatOfNat total)
              emergence_events := emergences.length
              emergence_types := emergences.dedup
              consciousness_score :=
                fdiv
                  (fadd
                    (fadd
                      (fadd (fmul (floatOfNat sr) (round64 (4 / 10)))
                        (fmul (floatOfNat ci) (round64 (3 / 10))))
                      (fmul (floatOfNat qu) (round64 (2 / 10))))
                    (fmul (floatOfNat emergences.length)
                      (round64 (1 / 10))))
                  (floatOfNat total) }

/-- Projection used to state facts about the returned score. -/
def scoreOf : AnalyzeResult → Option ℚ
  | .ok r => some r.consciousness_score
  | _ => none

/-- A one-thought session log in which the thought has all three weighted
flags set and exactly one emergence event was recorded. -/
def c3SessionLog : List RawLine :=
  [RawLine.thought
     (some { self_reference := some true,
             consciousness_indicators := some true,
             questioning := some true }),
   RawLine.emergence (("self_reference"))]

/-! ### Specification-side characterizations

These definitions restate, in the spec's vocabulary, what the scanning
code is supposed to compute; the claim theorems relate them to the
translations above. -/

/-- A word boundary to the left of a match: either the match is at the
start of the text (`pre = []`, in which case the scanner's
previous-character flag must say "not a word character"), or the
character just before it is not a word character. -/
def boundaryBefore (prevW : Bool) (pre : List Char) : Prop :=
  match pre.getLast? with
  | none => prevW = false
  | some c => isWordChar c = false

/-- A word boundary to the right of a match: the match ends the text or
the next character is not a word character. -/
def boundaryAfter (post : List Char) : Prop :=
  match post.head? with
  | none => True
  | some c => isWordChar c = false

/-- The text `cs` contains `w` as a whole word: it occurs with a word
boundary on each side. -/
def wholeWordIn (w cs : List Char) : Prop :=
  ∃ pre post, cs = pre ++ w ++ post ∧ boundaryBefore false pre ∧
    boundaryAfter post

/-- The text `cs` contains `w` as a (not necessarily whole-word)
substring. -/
def substringIn (w cs : List Char) : Prop :=
  ∃ pre post, cs = pre ++ w ++ post

/-- The `thought_id`s of the thought entries of a log, in file order. -/
def thoughtIds (file : List LogEntry) : List ℕ :=
  file.filterMap fun e =>
    match e with
    | .thought t => some t.thought_id
    | _ => none

/-- The emergence entries of a log, in file order. -/
def emergenceEntriesOf (file : List LogEntry) : List EmergenceEvent :=
  file.filterMap fun e =>
    match e with
    | .emergence ev => some ev
    | _ => none

/-- The `thought_id` of the last thought entry of the log, or the default
`d` when there is none. -/
def lastThoughtId (d : ℕ) : List LogEntry → ℕ
  | [] => d
  | .thought t :: rest => lastThoughtId t.thought_id rest
  | _ :: rest => lastThoughtId d rest

/-- Scan a log checking that every emergence entry's `thought_context`
equals the `thought_id` of the most recently preceding thought entry
(`last`, which is `0` at the start of the log, before any thought). -/
def contextOk (last : ℕ) : List LogEntry → Bool
  | [] => true
  | .thought t :: rest => contextOk t.thought_id rest
  | .emergence e :: rest => e.thought_context == last && contextOk last rest
  | _ :: rest => contextOk last rest

/-- How many of the session's calls were `log_thought` calls. -/
def countThoughtOps (ops : List LoggerOp) : ℕ :=
  ops.countP fun op =>
    match op with
    | .opThought _ _ _ => true
    | _ => false

/-- The `patterns` payloads of the thought lines of a raw log. -/
def thoughtPats (lines : List RawLine) : List (Option RawPatterns) :=
  lines.filterMap fun l =>
    match l with
    | .thought p => some p
    | _ => none

/-- The `emergence_type`s of the emergence lines of a raw log. -/
def emTypes (lines : List RawLine) : List String :=
  lines.filterMap fun l =>
    match l with
    | .emergence ty => some ty
    | _ => none

/-- Replace a missing `patterns` object, and each missing flag inside a
present one, by an explicit `false` — the default the analyzer's
`dict.get` calls supply. -/
def fillPatterns : Option RawPatterns → Option RawPatterns
  | none =>
      some { self_reference := some false,
             consciousness_indicators := some false,
             questioning := some false }
  | some r =>
      some { self_reference := some (r.self_reference.getD false),
             consciousness_indicators :=
               some (r.consciousness_indicators.getD false),
             questioning := some (r.questioning.getD false) }

/-- Apply `fillPatterns` to a raw log line. -/
def fillLine : RawLine → RawLine
  | .thought p => .thought (fillPatterns p)
  | l => l

/-- The consciousness-score formula evaluated in exact rational
arithmetic instead of binary64 arithmetic. -/
def exactScore (sr ci qu em total : ℕ) : ℚ :=
  ((sr : ℚ) * (4 / 10) + (ci : ℚ) * (3 / 10) + (qu : ℚ) * (2 / 10) +
      (em : ℚ) * (1 / 10)) / (total : ℚ)

/-- The thought entry `log_thought` builds from state `s` and its
arguments. -/
def mkThoughtEntry (s : LoggerState) (t : String) (sd : SensorData)
    (wo : Bool) : ThoughtEntry :=
  { thought_id := s.thought_count + 1, content := t, was_output := wo,
    sensor_data := sd, patterns := analyze_thought_patterns t,
    content_length := t.length, word_count := wordCount t }

/-- The candidates actually logged for a thought: the detector's, when
the pre-check passes, and none otherwise. -/
def loggedCandidates (t : String) : List (String × ℚ) :=
  if (analyze_thought_patterns t).self_reference ||
      (analyze_thought_patterns t).consciousness_indicators then
    detect_emergence_candidates (analyze_thought_patterns t)
  else []

/-! ### Correctness of the word scanner -/

theorem wordMatchFrom_iff (w cs : List Char) :
    wordMatchFrom w cs = true ↔
      ∃ post, cs = w ++ post ∧ boundaryAfter post := by
  unfold wordMatchFrom
  rw [Bool.and_eq_true]
  constructor
  · rintro ⟨hpre, hpost⟩
    rw [List.isPrefixOf_iff_prefix] at hpre
    obtain ⟨post, rfl⟩ := hpre
    refine ⟨post, rfl, ?_⟩
    rw [List.drop_left] at hpost
    unfold boundaryAfter
    cases post with
    | nil => trivial
    | cons c rest => simpa using hpost
  · rintro ⟨post, rfl, hafter⟩
    constructor
    · rw [List.isPrefixOf_iff_prefix]
      exact ⟨post, rfl⟩
    · rw [List.drop_left]
      unfold boundaryAfter at hafter
      cases post with
      | nil => trivial
      | cons c rest => simpa using hafter

theorem boundaryBefore_cons (prevW : Bool) (c : Char) (pre : List Char) :
    boundaryBefore prevW (c :: pre) ↔ boundaryBefore (isWordChar c) pre := by
  cases pre with
  | nil => simp [boundaryBefore]
  | cons d pre =>
      unfold boundaryBefore
      rw [List.getLast?_cons_cons]
      cases h : (d :: pre).getLast? with
      | none => exact absurd h (by simp)
      | some x => exact Iff.rfl

theorem searchWord_iff (w : List Char) (hw : w ≠ []) :
    ∀ (cs : List Char) (prevW : Bool),
      searchWord w prevW cs = true ↔
        ∃ pre post, cs = pre ++ w ++ post ∧ boundaryBefore prevW pre ∧
          boundaryAfter post := by
  intro cs
  induction cs with
  | nil =>
      intro prevW
      simp only [searchWord]
      constructor
      · intro h; exact absurd h (by simp)
      · rintro ⟨pre, post, habs, -, -⟩
        rw [eq_comm, List.append_eq_nil, List.append_eq_nil] at habs
        exact absurd habs.1.2 hw
  | cons c cs ih =>
      intro prevW
      simp only [searchWord, Bool.or_eq_true, Bool.and_eq_true,
        Bool.not_eq_true']
      rw [wordMatchFrom_iff, ih]
      constructor
      · rintro (⟨hprev, post, hcs, hafter⟩ | ⟨pre, post, hcs, hbefore, hafter⟩)
        · refine ⟨[], post, by simpa using hcs, ?_, hafter⟩
          simpa [boundaryBefore] using hprev
        · refine ⟨c :: pre, post, by simp [hcs], ?_, hafter⟩
          exact (boundaryBefore_cons prevW c pre).mpr hbefore
      · rintro ⟨pre, post, hcs, hbefore, hafter⟩
        cases pre with
        | nil =>
            left
            refine ⟨by simpa [boundaryBefore] using hbefore, post,
              by simpa using hcs, hafter⟩
        | cons c' pre =>
            right
            injection hcs with h1 h2
            rw [h1]
            exact ⟨pre, post, h2, (boundaryBefore_cons prevW c' pre).mp
              hbefore, hafter⟩

theorem reSearchWord_iff (w : List Char) (hw : w ≠ []) (cs : List Char) :
    reSearchWord w cs = true ↔ wholeWordIn w cs := by
  unfold reSearchWord wholeWordIn
  exact searchWord_iff w hw cs false

theorem containsSub_iff (w : List Char) :
    ∀ cs, containsSub w cs = true ↔ substringIn w cs := by
  intro cs
  induction cs with
  | nil =>
      simp only [containsSub, substringIn]
      constructor
      · intro h
        have hw : w = [] := by simpa using h
        exact ⟨[], [], by simp [hw]⟩
      · rintro ⟨pre, post, habs⟩
        rw [eq_comm, List.append_eq_nil, List.append_eq_nil] at habs
        simp [habs.1.2]
  | cons c cs ih =>
      simp only [containsSub, Bool.or_eq_true, ih, substringIn]
      constructor
      · rintro (hpre | ⟨pre, post, hcs⟩)
        · rw [List.isPrefixOf_iff_prefix] at hpre
          obtain ⟨post, hpost⟩ := hpre
          exact ⟨[], post, by simpa using hpost.symm⟩
        · exact ⟨c :: pre, post, by simp [hcs]⟩
      · rintro ⟨pre, post, hcs⟩
        cases pre with
        | nil =>
            left
            rw [List.isPrefixOf_iff_prefix]
            exact ⟨post, by simpa using hcs.symm⟩
        | cons c' pre =>
            right
            injection hcs with h1 h2
            exact ⟨pre, post, h2⟩

theorem self_reference_patterns_ne_nil :
    ∀ w ∈ self_reference_patterns, w ≠ [] := by decide

theorem consciousness_patterns_ne_nil :
    ∀ w ∈ consciousness_patterns, w ≠ [] := by decide

theorem temporal_patterns_ne_nil :
    ∀ w ∈ temporal_patterns, w ≠ [] := by decide

/-- C6: for every non-empty text, the classifier computes the five flags
by the stated match rules — `self_reference`, `consciousness_indicators`
and `temporal_awareness` are whole-word matches of their fixed word lists
against the (case-insensitively handled, hence lowercased) text,
`questioning` is a literal `?` character test, and `emotional_language`
is a plain substring match of the six listed words against the lowercased
text. -/
theorem c6_classifier_match_rules (t : String) (h : t ≠ "") :
    ((analyze_thought_patterns t).self_reference = true ↔
      ∃ w ∈ self_reference_patterns,
        wholeWordIn w (t.data.map Char.toLower)) ∧
    ((analyze_thought_patterns t).consciousness_indicators = true ↔
      ∃ w ∈ consciousness_patterns,
        wholeWordIn w (t.data.map Char.toLower)) ∧
    ((analyze_thought_patterns t).temporal_awareness = true ↔
      ∃ w ∈ temporal_patterns,
        wholeWordIn w (t.data.map Char.toLower)) ∧
    ((analyze_thought_patterns t).questioning = true ↔ '?' ∈ t.data) ∧
    ((analyze_thought_patterns t).emotional_language = true ↔
      ∃ w ∈ emotional_words, substringIn w (t.data.map Char.toLower)) := by
  unfold analyze_thought_patterns
  rw [if_neg h]
  refine ⟨?_, ?_, ?_, ?_, ?_⟩
  · show (self_reference_patterns.any fun w =>
      reSearchWord w (t.data.map Char.toLower)) = true ↔ _
    rw [List.any_eq_true]
    refine exists_congr fun w => and_congr_right fun hw => ?_
    exact reSearchWord_iff w (self_reference_patterns_ne_nil w hw) _
  · show (consciousness_patterns.any fun w =>
      reSearchWord w (t.data.map Char.toLower)) = true ↔ _
    rw [List.any_eq_true]
    refine exists_congr fun w => and_congr_right fun hw => ?_
    exact reSearchWord_iff w (consciousness_patterns_ne_nil w hw) _
  · show (temporal_patterns.any fun w =>
      reSearchWord w (t.data.map Char.toLower)) = true ↔ _
    rw [List.any_eq_true]
    refine exists_congr fun w => and_congr_right fun hw => ?_
    exact reSearchWord_iff w (temporal_patterns_ne_nil w hw) _
  · show t.data.contains ('?') = true ↔ '?' ∈ t.data
    simp
  · show (emotional_words.any fun w =>
      containsSub w (t.data.map Char.toLower)) = true ↔ _
    rw [List.any_eq_true]
    refine exists_congr fun w => and_congr_right fun hw => ?_
    exact containsSub_iff w _

/-- Witness for C6 at a concrete input. -/
theorem c6_classifier_match_rules_witness :
    (analyze_thought_patterns ("I feel aware now?")).questioning = true ↔
      '?' ∈ ("I feel aware now?").data :=
  (c6_classifier_match_rules ("I feel aware now?") (by decide)).2.2.2.1

/-- C7: for the empty string and for an absent (`None`) text input, the
classifier returns a record with all five flags false. -/
theorem c7_empty_or_absent_text_all_false :
    analyze_thought_patterns_opt none = allFalseFlags ∧
      analyze_thought_patterns ("") = allFalseFlags := by
  exact ⟨by decide, by decide⟩

/-! ### Behaviour of the logging state machine -/

theorem logEmergenceSeq_state (cands : List (String × ℚ)) :
    ∀ (oks : List Bool) (s : LoggerState) (file : List LogEntry)
      (content : String),
      (logEmergenceSeq oks s file content cands).1 =
        { s with emergence_events := s.emergence_events ++
            cands.map fun x =>
              { emergence_type := x.1, content := content,
                confidence := x.2, thought_context := s.thought_count } } := by
  induction cands with
  | nil => intro oks s file content; simp [logEmergenceSeq]
  | cons hd tl ih =>
      intro oks s file content
      obtain ⟨ty, conf⟩ := hd
      simp only [logEmergenceSeq, log_emergence, ih]
      simp

theorem logEmergenceSeq_file (cands : List (String × ℚ)) :
    ∀ (s : LoggerState) (file : List LogEntry) (content : String),
      (logEmergenceSeq [] s file content cands).2 =
        file ++ cands.map fun x => LogEntry.emergence
          { emergence_type := x.1, content := content, confidence := x.2,
            thought_context := s.thought_count } := by
  induction cands with
  | nil => intro s file content; simp [logEmergenceSeq]
  | cons hd tl ih =>
      intro s file content
      obtain ⟨ty, conf⟩ := hd
      simp only [logEmergenceSeq, log_emergence, write_log_entry,
        List.headD_nil, List.tail_nil, if_true, ih]
      simp

theorem log_thought_state (s : LoggerState) (file : List LogEntry)
    (t : String) (sd : SensorData) (wo : Bool) :
    (log_thought [] s file t sd wo).1 =
      { thought_count := s.thought_count + 1,
        output_count := s.output_count + (if wo then 1 else 0),
        emergence_events := s.emergence_events ++
          (loggedCandidates t).map fun x =>
            { emergence_type := x.1, content := t, confidence := x.2,
              thought_context := s.thought_count + 1 } } := by
  unfold loggedCandidates
  by_cases hpre : ((analyze_thought_patterns t).self_reference ||
      (analyze_thought_patterns t).consciousness_indicators) = true
  · simp only [log_thought, hpre, if_true, logEmergenceSeq_state]
  · rw [Bool.not_eq_true] at hpre
    simp [log_thought, hpre]

theorem log_thought_file (s : LoggerState) (file : List LogEntry)
    (t : String) (sd : SensorData) (wo : Bool) :
    (log_thought [] s file t sd wo).2 =
      file ++ LogEntry.thought (mkThoughtEntry s t sd wo) ::
        ((loggedCandidates t).map fun x => LogEntry.emergence
          { emergence_type := x.1, content := t, confidence := x.2,
            thought_context := s.thought_count + 1 }) := by
  unfold loggedCandidates mkThoughtEntry
  by_cases hpre : ((analyze_thought_patterns t).self_reference ||
      (analyze_thought_patterns t).consciousness_indicators) = true
  · simp only [log_thought, hpre, if_true, write_log_entry,
      List.headD_nil, List.tail_nil, logEmergenceSeq_file]
    simp
  · rw [Bool.not_eq_true] at hpre
    simp [log_thought, hpre, write_log_entry]

theorem log_thought_state_oks (oks : List Bool) (s : LoggerState)
    (file : List LogEntry) (t : String) (sd : SensorData) (wo : Bool) :
    (log_thought oks s file t sd wo).1 =
      (log_thought [] s file t sd wo).1 := by
  by_cases hpre : ((analyze_thought_patterns t).self_reference ||
      (analyze_thought_patterns t).consciousness_indicators) = true
  · simp only [log_thought, hpre, if_true, logEmergenceSeq_state]
  · rw [Bool.not_eq_true] at hpre
    simp [log_thought, hpre]

theorem thoughtIds_append (f g : List LogEntry) :
    thoughtIds (f ++ g) = thoughtIds f ++ thoughtIds g := by
  unfold thoughtIds
  exact List.filterMap_append f g _

theorem thoughtIds_map_emergence (cands : List (String × ℚ))
    (f : String × ℚ → EmergenceEvent) :
    thoughtIds (cands.map fun x => LogEntry.emergence (f x)) = [] := by
  induction cands with
  | nil => rfl
  | cons hd tl ih => exact ih

theorem emergenceEntriesOf_append (f g : List LogEntry) :
    emergenceEntriesOf (f ++ g) =
      emergenceEntriesOf f ++ emergenceEntriesOf g := by
  unfold emergenceEntriesOf
  exact List.filterMap_append f g _

theorem lastThoughtId_append (f g : List LogEntry) :
    ∀ d, lastThoughtId d (f ++ g) = lastThoughtId (lastThoughtId d f) g := by
  induction f with
  | nil => intro d; rfl
  | cons e f ih =>
      intro d
      cases e with
      | sessionStart sid => exact ih d
      | thought t => exact ih t.thought_id
      | emergence ev => exact ih d
      | sessionEnd => exact ih d

theorem lastThoughtId_map_emergence (cands : List (String × ℚ))
    (f : String × ℚ → EmergenceEvent) :
    ∀ d, lastThoughtId d (cands.map fun x => LogEntry.emergence (f x)) = d := by
  induction cands with
  | nil => intro d; rfl
  | cons hd tl ih => intro d; exact ih d

theorem contextOk_append (f g : List LogEntry) :
    ∀ d, contextOk d (f ++ g) =
      (contextOk d f && contextOk (lastThoughtId d f) g) := by
  induction f with
  | nil => intro d; rfl
  | cons e f ih =>
      intro d
      cases e with
      | sessionStart sid => exact ih d
      | thought t => exact ih t.thought_id
      | sessionEnd => exact ih d
      | emergence ev =>
          show (ev.thought_context == d && contextOk d (f ++ g)) =
            ((ev.thought_context == d && contextOk d f) &&
              contextOk (lastThoughtId d f) g)
          rw [ih d, Bool.and_assoc]

theorem contextOk_map_emergence (last : ℕ) (content : String)
    (cands : List (String × ℚ)) :
    contextOk last (cands.map fun x => LogEntry.emergence
      { emergence_type := x.1, content := content, confidence := x.2,
        thought_context := last }) = true := by
  induction cands with
  | nil => rfl
  | cons hd tl ih => simpa [contextOk] using ih

theorem thoughtIds_emergence_singleton (ev : EmergenceEvent) :
    thoughtIds [LogEntry.emergence ev] = [] := rfl

theorem log_emergence_eq (ok : Bool) (s : LoggerState)
    (file : List LogEntry) (ty c : String) (conf : ℚ) :
    log_emergence ok s file ty c conf =
      ({ s with emergence_events := s.emergence_events ++
          [{ emergence_type := ty, content := c, confidence := conf,
             thought_context := s.thought_count }] },
       write_log_entry ok file (LogEntry.emergence
          { emergence_type := ty, content := c, confidence := conf,
            thought_context := s.thought_count })) := rfl

theorem runOps_ids (ops : List LoggerOp) :
    ∀ (s : LoggerState) (file : List LogEntry),
      thoughtIds file = List.range' 1 s.thought_count →
      thoughtIds (runOps s file ops).2 =
          List.range' 1 (runOps s file ops).1.thought_count ∧
        (runOps s file ops).1.thought_count =
          s.thought_count + countThoughtOps ops := by
  induction ops with
  | nil => intro s file h; exact ⟨h, rfl⟩
  | cons op rest ih =>
      intro s file h
      cases op with
      | opThought t sd wo =>
          simp only [runOps, runOp]
          have hstate : (log_thought [] s file t sd wo).1.thought_count =
              s.thought_count + 1 := by rw [log_thought_state]
          have hfile : thoughtIds (log_thought [] s file t sd wo).2 =
              List.range' 1
                ((log_thought [] s file t sd wo).1.thought_count) := by
            rw [log_thought_file, thoughtIds_append, h, hstate]
            show List.range' 1 s.thought_count ++
              ((mkThoughtEntry s t sd wo).thought_id ::
                thoughtIds ((loggedCandidates t).map fun x =>
                  LogEntry.emergence
                    { emergence_type := x.1, content := t,
                      confidence := x.2,
                      thought_context := s.thought_count + 1 })) = _
            rw [thoughtIds_map_emergence]
            rw [List.range'_1_concat]
            show List.range' 1 s.thought_count ++ [s.thought_count + 1] = _
            rw [Nat.add_comm 1 s.thought_count]
          obtain ⟨ha, hb⟩ := ih _ _ hfile
          refine ⟨ha, ?_⟩
          rw [hb, hstate]
          have hc : countThoughtOps (LoggerOp.opThought t sd wo :: rest) =
              countThoughtOps rest + 1 := by
            simp [countThoughtOps, List.countP_cons]
          rw [hc]
          omega
      | opEmergence ty c conf =>
          simp only [runOps, runOp]
          have hstate : (log_emergence true s file ty c conf).1.thought_count
              = s.thought_count := rfl
          have hfile : thoughtIds (log_emergence true s file ty c conf).2 =
              List.range' 1
                ((log_emergence true s file ty c conf).1.thought_count) := by
            show thoughtIds (file ++ [LogEntry.emergence _]) = _
            rw [thoughtIds_append, thoughtIds_emergence_singleton,
              List.append_nil, h, hstate]
          obtain ⟨ha, hb⟩ := ih _ _ hfile
          refine ⟨ha, ?_⟩
          rw [hb, hstate]
          have hc : countThoughtOps
              (LoggerOp.opEmergence ty c conf :: rest) =
              countThoughtOps rest := by
            simp [countThoughtOps, List.countP_cons]
          rw [hc]

theorem runOps_context (ops : List LoggerOp) :
    ∀ (s : LoggerState) (file : List LogEntry),
      contextOk 0 file = true →
      lastThoughtId 0 file = s.thought_count →
      contextOk 0 (runOps s file ops).2 = true ∧
        lastThoughtId 0 (runOps s file ops).2 =
          (runOps s file ops).1.thought_count := by
  induction ops with
  | nil => intro s file h1 h2; exact ⟨h1, h2⟩
  | cons op rest ih =>
      intro s file h1 h2
      cases op with
      | opThought t sd wo =>
          simp only [runOps, runOp]
          apply ih
          · rw [log_thought_file, contextOk_append, h1, Bool.true_and, h2]
            exact contextOk_map_emergence (s.thought_count + 1) t
              (loggedCandidates t)
          · rw [log_thought_file, lastThoughtId_append, log_thought_state]
            exact lastThoughtId_map_emergence (loggedCandidates t) _ _
      | opEmergence ty c conf =>
          simp only [runOps, runOp, log_emergence_eq]
          apply ih
          · show contextOk 0 (file ++ [LogEntry.emergence _]) = true
            rw [contextOk_append, h1, Bool.true_and, h2]
            simp [contextOk]
          · show lastThoughtId 0 (file ++ [LogEntry.emergence _]) = _
            rw [lastThoughtId_append]
            exact h2

/-- C4: within one session, thought ids are assigned sequentially — the
thought entries written by any sequence of calls carry exactly the ids
`1, 2, ..., n` in order, where `n` is the number of `log_thought` calls,
and the final `thought_count` equals `n`. -/
theorem c4_thought_ids_sequential (ops : List LoggerOp) (sid : String) :
    thoughtIds (runOps initState (initFile sid) ops).2 =
        List.range' 1 (countThoughtOps ops) ∧
      (runOps initState (initFile sid) ops).1.thought_count =
        countThoughtOps ops := by
  obtain ⟨ha, hb⟩ := runOps_ids ops initState (initFile sid) rfl
  rw [ha, hb]
  show List.range' 1 (0 + countThoughtOps ops) = _ ∧
    0 + countThoughtOps ops = _
  rw [Nat.zero_add]
  exact ⟨rfl, rfl⟩

/-- C5: every emergence entry written — by the detector or by a direct
`log_emergence` call — has `thought_context` equal to the `thought_id` of
the most recently logged thought at the time of the call, and `0` when no
thought has been logged yet (`contextOk 0` checks exactly this along the
file). -/
theorem c5_emergence_thought_context (ops : List LoggerOp) (sid : String) :
    contextOk 0 (runOps initState (initFile sid) ops).2 = true :=
  (runOps_context ops initState (initFile sid) rfl rfl).1

/-- C1: when the pre-check passes, `log_thought` appends the thought
entry and then exactly the detector's candidates, in rule order, as
emergence entries; and on the input `"I feel aware now?"` the emitted
types are `self_reference`, `consciousness_questioning`,
`temporal_self_awareness` and `complex_self_reflection` with the binary64
confidences written `0.8`, `0.9`, `0.7` and `0.8`. -/
theorem c1_detector_order_and_confidences (s : LoggerState)
    (file : List LogEntry) (t : String) (sd : SensorData) (wo : Bool)
    (hpre : (analyze_thought_patterns t).self_reference = true ∨
      (analyze_thought_patterns t).consciousness_indicators = true) :
    ((log_thought [] s file t sd wo).2 =
      file ++ LogEntry.thought (mkThoughtEntry s t sd wo) ::
        ((detect_emergence_candidates (analyze_thought_patterns t)).map
          fun x => LogEntry.emergence
            { emergence_type := x.1, content := t, confidence := x.2,
              thought_context := s.thought_count + 1 })) ∧
    detect_emergence_candidates
        (analyze_thought_patterns ("I feel aware now?")) =
      [(("self_reference"), round64 (8 / 10)),
       (("consciousness_questioning"), round64 (9 / 10)),
       (("temporal_self_awareness"), round64 (7 / 10)),
       (("complex_self_reflection"), round64 (8 / 10))] := by
  constructor
  · rw [log_thought_file]
    have hcands : loggedCandidates t =
        detect_emergence_candidates (analyze_thought_patterns t) := by
      unfold loggedCandidates
      rcases hpre with h | h <;> simp [h]
    rw [hcands]
  · decide

/-- Witness for C1: the pre-check hypothesis discharged on the concrete
thought `"I feel aware now?"` from the fresh session state. -/
theorem c1_detector_order_and_confidences_witness :
    (log_thought [] initState (initFile (("s"))) ("I feel aware now?")
        [] false).2 =
      initFile (("s")) ++
        LogEntry.thought
            (mkThoughtEntry initState ("I feel aware now?") [] false) ::
          ((detect_emergence_candidates
              (analyze_thought_patterns ("I feel aware now?"))).map
            fun x => LogEntry.emergence
              { emergence_type := x.1, content := ("I feel aware now?"),
                confidence := x.2,
                thought_context := initState.thought_count + 1 }) :=
  (c1_detector_order_and_confidences initState (initFile (("s")))
    ("I feel aware now?") [] false (Or.inl (by decide))).1

/-- C2: when both `self_reference` and `consciousness_indicators` are
false, the pre-check in `log_thought` suppresses the detector entirely —
no emergence entry is written to the file and the in-memory
`emergence_events` list is unchanged, whatever the write outcomes. -/
theorem c2_precheck_suppresses_detector (oks : List Bool)
    (s : LoggerState) (file : List LogEntry) (t : String)
    (sd : SensorData) (wo : Bool)
    (h1 : (analyze_thought_patterns t).self_reference = false)
    (h2 : (analyze_thought_patterns t).consciousness_indicators = false) :
    emergenceEntriesOf (log_thought oks s file t sd wo).2 =
        emergenceEntriesOf file ∧
      (log_thought oks s file t sd wo).1.emergence_events =
        s.emergence_events := by
  have hcond : ((analyze_thought_patterns t).self_reference ||
      (analyze_thought_patterns t).consciousness_indicators) = false := by
    rw [h1, h2]; rfl
  constructor
  · simp only [log_thought, hcond, Bool.false_eq_true, if_false]
    cases hok : oks.headD true <;>
      simp [write_log_entry, emergenceEntriesOf_append, emergenceEntriesOf]
  · simp [log_thought, hcond]

/-- Witness for C2: on `"now sad?"` the three remaining flags are all
true (so the detector's rule-4 count reaches 3), yet nothing is
emitted. -/
theorem c2_precheck_suppresses_detector_witness :
    ((analyze_thought_patterns ("now sad?")).temporal_awareness = true ∧
      (analyze_thought_patterns ("now sad?")).questioning = true ∧
      (analyze_thought_patterns ("now sad?")).emotional_language = true ∧
      3 ≤ patternCount (analyze_thought_patterns ("now sad?"))) ∧
    (emergenceEntriesOf
        (log_thought [] initState (initFile (("s"))) ("now sad?") []
          false).2 =
      emergenceEntriesOf (initFile (("s"))) ∧
    (log_thought [] initState (initFile (("s"))) ("now sad?") []
        false).1.emergence_events = initState.emergence_events) :=
  ⟨by decide,
   c2_precheck_suppresses_detector [] initState (initFile (("s")))
     ("now sad?") [] false (by decide) (by decide)⟩

/-- C9: the log-append operation is total (a failed write simply leaves
the file unchanged — the Python `except` branch prints and swallows the
error), and the in-memory session state produced by `log_thought` — the
thought and output counters and the emergence list — does not depend on
the write outcomes. -/
theorem c9_write_failure_swallowed (oks : List Bool) (s : LoggerState)
    (file : List LogEntry) (t : String) (sd : SensorData) (wo : Bool)
    (e : LogEntry) :
    (log_thought oks s file t sd wo).1 =
        (log_thought [] s file t sd wo).1 ∧
      write_log_entry false file e = file :=
  ⟨log_thought_state_oks oks s file t sd wo, rfl⟩

/-! ### Behaviour of the analyzer -/

theorem collectEntries_none (lines : List RawLine)
    (h : RawLine.malformed ∈ lines) : collectEntries lines = none := by
  induction lines with
  | nil => cases h
  | cons l rest ih =>
      cases l with
      | malformed => rfl
      | thought p =>
          have hrest : RawLine.malformed ∈ rest := by
            rcases List.mem_cons.mp h with h' | h'
            · exact absurd h' (by simp)
            · exact h'
          simp [collectEntries, ih hrest]
      | emergence ty =>
          have hrest : RawLine.malformed ∈ rest := by
            rcases List.mem_cons.mp h with h' | h'
            · exact absurd h' (by simp)
            · exact h'
          simp [collectEntries, ih hrest]
      | other =>
          have hrest : RawLine.malformed ∈ rest := by
            rcases List.mem_cons.mp h with h' | h'
            · exact absurd h' (by simp)
            · exact h'
          simp [collectEntries, ih hrest]

theorem collectEntries_some (lines : List RawLine)
    (h : RawLine.malformed ∉ lines) :
    collectEntries lines = some (thoughtPats lines, emTypes lines) := by
  induction lines with
  | nil => rfl
  | cons l rest ih =>
      have hrest : RawLine.malformed ∉ rest := fun hm =>
        h (List.mem_cons_of_mem _ hm)
      cases l with
      | malformed => exact absurd (List.mem_cons_self _ _) h
      | thought p =>
          simp [collectEntries, ih hrest, thoughtPats, emTypes]
      | emergence ty =>
          simp [collectEntries, ih hrest, thoughtPats, emTypes]
      | other =>
          simp [collectEntries, ih hrest, thoughtPats, emTypes]

/-- C8: the analyzer never crashes — a malformed line anywhere yields the
structured unreadable-log error, a parseable log with zero thought
entries yields the structured empty-log error, and the two error results
are distinct (never a division-by-zero failure: the `total = 0` case is
answered before any division). -/
theorem c8_analyzer_error_results (l1 l2 : List RawLine)
    (h1 : RawLine.malformed ∈ l1) (h2 : RawLine.malformed ∉ l2)
    (h3 : thoughtPats l2 = []) :
    analyze_consciousness_indicators true l1 =
        AnalyzeResult.logUnreadable ∧
      analyze_consciousness_indicators true l2 =
        AnalyzeResult.emptyLog ∧
      AnalyzeResult.logUnreadable ≠ AnalyzeResult.emptyLog := by
  refine ⟨?_, ?_, by decide⟩
  · simp [analyze_consciousness_indicators, collectEntries_none l1 h1]
  · simp [analyze_consciousness_indicators, collectEntries_some l2 h2, h3]

/-- Witness for C8: a log with one malformed line, and a parseable log
with no thought entry. -/
theorem c8_analyzer_error_results_witness :
    analyze_consciousness_indicators true [RawLine.malformed] =
        AnalyzeResult.logUnreadable ∧
      analyze_consciousness_indicators true [RawLine.other] =
        AnalyzeResult.emptyLog ∧
      AnalyzeResult.logUnreadable ≠ AnalyzeResult.emptyLog :=
  c8_analyzer_error_results [RawLine.malformed] [RawLine.other]
    (by decide) (by decide) (by decide)

theorem countP_map_fillPatterns (ts : List (Option RawPatterns))
    (sel : RawPatterns → Option Bool)
    (hsel : ∀ p, getFlag (fillPatterns p) sel = getFlag p sel) :
    ((ts.map fillPatterns).countP fun p => getFlag p sel) =
      ts.countP fun p => getFlag p sel := by
  induction ts with
  | nil => rfl
  | cons p ts ih => simp [List.countP_cons, ih, hsel p]

theorem getFlag_fill_self_reference (p : Option RawPatterns) :
    getFlag (fillPatterns p) RawPatterns.self_reference =
      getFlag p RawPatterns.self_reference := by
  cases p <;> rfl

theorem getFlag_fill_consciousness (p : Option RawPatterns) :
    getFlag (fillPatterns p) RawPatterns.consciousness_indicators =
      getFlag p RawPatterns.consciousness_indicators := by
  cases p <;> rfl

theorem getFlag_fill_questioning (p : Option RawPatterns) :
    getFlag (fillPatterns p) RawPatterns.questioning =
      getFlag p RawPatterns.questioning := by
  cases p <;> rfl

theorem thoughtPats_map_fill (lines : List RawLine) :
    thoughtPats (lines.map fillLine) =
      (thoughtPats lines).map fillPatterns := by
  induction lines with
  | nil => rfl
  | cons l rest ih =>
      cases l with
      | malformed => exact ih
      | thought p =>
          show fillPatterns p :: thoughtPats (rest.map fillLine) =
            fillPatterns p :: (thoughtPats rest).map fillPatterns
          rw [ih]
      | emergence ty => exact ih
      | other => exact ih

theorem emTypes_map_fill (lines : List RawLine) :
    emTypes (lines.map fillLine) = emTypes lines := by
  induction lines with
  | nil => rfl
  | cons l rest ih =>
      cases l with
      | malformed => exact ih
      | thought p => exact ih
      | emergence ty =>
          show ty :: emTypes (rest.map fillLine) = ty :: emTypes rest
          rw [ih]
      | other => exact ih

theorem malformed_not_mem_map_fill (lines : List RawLine)
    (h : RawLine.malformed ∉ lines) :
    RawLine.malformed ∉ lines.map fillLine := by
  intro hmem
  obtain ⟨l, hl, hfl⟩ := List.mem_map.mp hmem
  cases l with
  | malformed => exact h hl
  | thought p => exact absurd hfl.symm (by simp [fillLine])
  | emergence ty => exact absurd hfl.symm (by simp [fillLine])
  | other => exact absurd hfl.symm (by simp [fillLine])

/-- The analyzer's successful result, spelled out: counts by `countP`
over the thought lines' flag payloads, rates and score in binary64. -/
theorem analyze_ok_eq (lines : List RawLine)
    (h : RawLine.malformed ∉ lines)
    (hlen : ¬ ((thoughtPats lines).length = 0)) :
    analyze_consciousness_indicators true lines =
      AnalyzeResult.ok
        { total_thoughts := (thoughtPats lines).length
          self_reference_rate :=
            fdiv
              (floatOfNat ((thoughtPats lines).countP fun p =>
                getFlag p RawPatterns.self_reference))
              (floatOfNat (thoughtPats lines).length)
          consciousness_indicator_rate :=
            fdiv
              (floatOfNat ((thoughtPats lines).countP fun p =>
                getFlag p RawPatterns.consciousness_indicators))
              (floatOfNat (thoughtPats lines).length)
          questioning_rate :=
            fdiv
              (floatOfNat ((thoughtPats lines).countP fun p =>
                getFlag p RawPatterns.questioning))
              (floatOfNat (thoughtPats lines).length)
          emergence_events := (emTypes lines).length
          emergence_types := (emTypes lines).dedup
          consciousness_score :=
            fdiv
              (fadd
                (fadd
                  (fadd
                    (fmul
                      (floatOfNat ((thoughtPats lines).countP fun p =>
                        getFlag p RawPatterns.self_reference))
                      (round64 (4 / 10)))
                    (fmul
                      (floatOfNat ((thoughtPats lines).countP fun p =>
                        getFlag p RawPatterns.consciousness_indicators))
                      (round64 (3 / 10))))
                  (fmul
                    (floatOfNat ((thoughtPats lines).countP fun p =>
                      getFlag p RawPatterns.questioning))
                    (round64 (2 / 10))))
                (fmul (floatOfNat (emTypes lines).length)
                  (round64 (1 / 10))))
              (floatOfNat (thoughtPats lines).length) } := by
  simp only [analyze_consciousness_indicators,
    collectEntries_some lines h, Bool.not_true, Bool.false_eq_true,
    if_false, if_neg hlen]

/-- C10: a thought line with no `patterns` object, or with individual
flags missing from it, does not break the analyzer: it succeeds, and
filling every missing object/flag with an explicit `false` produces the
very same analysis — the missing data is counted as `false` in the rates
and the score. -/
theorem c10_missing_patterns_as_false (lines : List RawLine)
    (h : RawLine.malformed ∉ lines) (h2 : thoughtPats lines ≠ []) :
    (∃ r, analyze_consciousness_indicators true lines =
        AnalyzeResult.ok r) ∧
      analyze_consciousness_indicators true (lines.map fillLine) =
        analyze_consciousness_indicators true lines := by
  have hc1 := collectEntries_some lines h
  have hc2 := collectEntries_some _ (malformed_not_mem_map_fill lines h)
  rw [thoughtPats_map_fill, emTypes_map_fill] at hc2
  have hlen : ¬ ((thoughtPats lines).length = 0) := by
    intro h0
    exact h2 (List.length_eq_zero.mp h0)
  constructor
  · exact ⟨_, analyze_ok_eq lines h hlen⟩
  · simp only [analyze_consciousness_indicators, hc1, hc2, Bool.not_true,
      Bool.false_eq_true, if_false, List.length_map, if_neg hlen,
      countP_map_fillPatterns _ _ getFlag_fill_self_reference,
      countP_map_fillPatterns _ _ getFlag_fill_consciousness,
      countP_map_fillPatterns _ _ getFlag_fill_questioning]

/-- Witness for C10: a log whose single thought line has no `patterns`
object at all. -/
theorem c10_missing_patterns_as_false_witness :
    (∃ r, analyze_consciousness_indicators true [RawLine.thought none] =
        AnalyzeResult.ok r) ∧
      analyze_consciousness_indicators true
          ([RawLine.thought none].map fillLine) =
        analyze_consciousness_indicators true [RawLine.thought none] :=
  c10_missing_patterns_as_false [RawLine.thought none] (by decide)
    (by decide)

/-- C3 (amended): the analyzer's `consciousness_score` is the binary64
evaluation of `(sr*0.4 + c*0.3 + q*0.2 + em*0.1) / total` over the flag
counts; for a session in which every thought has all three weighted flags
true and there is exactly one emergence event per thought, the exact
rational value of that formula is `1`, but the binary64 score the code
returns need not equal `1.0` (see the counterexample). -/
theorem c3_score_formula_and_exact_value (lines : List RawLine)
    (h : RawLine.malformed ∉ lines) (h2 : thoughtPats lines ≠ []) :
    (scoreOf (analyze_consciousness_indicators true lines) =
      some
        (fdiv
          (fadd
            (fadd
              (fadd
                (fmul
                  (floatOfNat ((thoughtPats lines).countP fun p =>
                    getFlag p RawPatterns.self_reference))
                  (round64 (4 / 10)))
                (fmul
                  (floatOfNat ((thoughtPats lines).countP fun p =>
                    getFlag p RawPatterns.consciousness_indicators))
                  (round64 (3 / 10))))
              (fmul
                (floatOfNat ((thoughtPats lines).countP fun p =>
                  getFlag p RawPatterns.questioning))
                (round64 (2 / 10))))
            (fmul (floatOfNat (emTypes lines).length)
              (round64 (1 / 10))))
          (floatOfNat (thoughtPats lines).length))) ∧
    ((∀ p ∈ thoughtPats lines,
        getFlag p RawPatterns.self_reference = true ∧
          getFlag p RawPatterns.consciousness_indicators = true ∧
          getFlag p RawPatterns.questioning = true) →
      (emTypes lines).length = (thoughtPats lines).length →
      exactScore
        ((thoughtPats lines).countP fun p =>
          getFlag p RawPatterns.self_reference)
        ((thoughtPats lines).countP fun p =>
          getFlag p RawPatterns.consciousness_indicators)
        ((thoughtPats lines).countP fun p =>
          getFlag p RawPatterns.questioning)
        (emTypes lines).length
        (thoughtPats lines).length = 1) := by
  have hlen : ¬ ((thoughtPats lines).length = 0) := fun h0 =>
    h2 (List.length_eq_zero.mp h0)
  constructor
  · rw [analyze_ok_eq lines h hlen]
    rfl
  · intro hall hlen2
    have hsr : ((thoughtPats lines).countP fun p =>
        getFlag p RawPatterns.self_reference) =
        (thoughtPats lines).length :=
      List.countP_eq_length.mpr fun a ha => (hall a ha).1
    have hci : ((thoughtPats lines).countP fun p =>
        getFlag p RawPatterns.consciousness_indicators) =
        (thoughtPats lines).length :=
      List.countP_eq_length.mpr fun a ha => (hall a ha).2.1
    have hqu : ((thoughtPats lines).countP fun p =>
        getFlag p RawPatterns.questioning) =
        (thoughtPats lines).length :=
      List.countP_eq_length.mpr fun a ha => (hall a ha).2.2
    rw [hsr, hci, hqu, hlen2]
    have hn : ((thoughtPats lines).length : ℚ) ≠ 0 := by
      rw [Ne, Nat.cast_eq_zero]
      exact hlen
    unfold exactScore
    field_simp
    ring

/-- Witness for C3 at the concrete one-thought session. -/
theorem c3_score_formula_and_exact_value_witness :
    exactScore
      ((thoughtPats c3SessionLog).countP fun p =>
        getFlag p RawPatterns.self_reference)
      ((thoughtPats c3SessionLog).countP fun p =>
        getFlag p RawPatterns.consciousness_indicators)
      ((thoughtPats c3SessionLog).countP fun p =>
        getFlag p RawPatterns.questioning)
      (emTypes c3SessionLog).length
      (thoughtPats c3SessionLog).length = 1 :=
  (c3_score_formula_and_exact_value c3SessionLog (by decide)
    (by decide)).2 (by decide) (by decide)

/-- C3 counterexample: on the one-thought session whose thought has all
three weighted flags true and which has exactly one emergence event, the
exact value of the formula is `1`, but the analyzer's returned binary64
score is `9007199254740991/9007199254740992 = 1 - 2^-53` — in Python,
`0.9999999999999999`, which is not equal to `1.0`. -/
theorem c3_exact_one_counterexample :
    scoreOf (analyze_consciousness_indicators true c3SessionLog) =
        some (9007199254740991 / 9007199254740992) ∧
      ((9007199254740991 : ℚ) / 9007199254740992) ≠ 1 ∧
      exactScore 1 1 1 1 1 = 1 := by decide

end CLogger
